import Mathlib

/-!
Verification of the process supervision subsystem of a multi-tenant hosting
control plane (source: `hosting.py`, configuration constants from `config.py`).

The embedding models the module faithfully:
* `running_processes` (the Process Registry) is an association list from the
  string key `"{user_id}:{project_id}"` to a `RunningProcess` record.
* The outside world (the OS process table, the metadata store, the clock, the
  filesystem) is an explicit environment argument; `process.poll()` becomes
  `env.poll pid`, `datetime.now()` / `time.time()` become `env.now`, and
  `subprocess.Popen` becomes `env.spawn` (`none` when the constructor raises).
* Each operation returns its result tuple together with the updated registry,
  and — where a claim needs it — an explicit trace of the external actions it
  performed (signals sent, installer commands run).

All dictionary operations mirror Python dict semantics: assignment replaces an
existing binding in place, `del` removes it, iteration preserves order.
-/

/-- `AUTO_RESTART_BACKOFF_SEC` from `config.py`. -/
def AUTO_RESTART_BACKOFF_SEC : Nat := 3

/-- `AUTO_RESTART_CHECK_INTERVAL` from `config.py`. -/
def AUTO_RESTART_CHECK_INTERVAL : Nat := 3

/-- `USERS_DIR` from `config.py` (base-directory relative). -/
def USERS_DIR : String := "user_projects"

/-- `LOGS_DIR` from `config.py` (base-directory relative). -/
def LOGS_DIR : String := "logs"

/-- The row returned by `get_project` in `database.py`:
`(project_id, name, entry_file, language, auto_restart, description,
created_at)`; only the fields `hosting.py` destructures are kept.
`entry_file` and `language` are nullable columns, `auto_restart` is an
INTEGER column (Python truthiness: nonzero means enabled). -/
structure Project where
  name : String
  entry : Option String
  lang : Option String
  auto_restart : Int
deriving DecidableEq, Repr

/-- Python falsiness of an optional string (`not entry` in the source):
`None` and the empty string are falsy. -/
def isFalsy : Option String → Bool
  | none => true
  | some s => s = ""

/-- The `RunningProcess` dataclass of `hosting.py`.  The `process` handle is
represented by its pid; `start_time` and `backoff_until` are abstract
timestamps. -/
structure RunningProcess where
  user_id : Int
  project_id : Int
  entry_file : String
  language : String
  pid : Nat
  start_time : Nat
  log_path : String
  auto_restart : Bool
  restart_count : Nat := 0
  last_exit_code : Option Int := none
  backoff_until : Nat := 0
deriving DecidableEq, Repr

/-- The global `running_processes` dict, as an ordered association list. -/
abbrev Registry := List (String × RunningProcess)

/-- `make_key` from `hosting.py`: `f"{user_id}:{project_id}"`. -/
def make_key (user_id project_id : Int) : String :=
  toString user_id ++ ":" ++ toString project_id

/-- Dict lookup (`running_processes.get(key)` / `key in running_processes`). -/
def lookupR : Registry → String → Option RunningProcess
  | [], _ => none
  | (k, v) :: rest, key => if k = key then some v else lookupR rest key

/-- Dict assignment `running_processes[key] = v`: replaces an existing
binding in place, otherwise appends. -/
def insertR : Registry → String → RunningProcess → Registry
  | [], key, v => [(key, v)]
  | (k, w) :: rest, key, v =>
    if k = key then (key, v) :: rest else (k, w) :: insertR rest key v

/-- Dict deletion `del running_processes[key]` (first binding). -/
def eraseR : Registry → String → Registry
  | [], _ => []
  | (k, w) :: rest, key => if k = key then rest else (k, w) :: eraseR rest key

/-- The keys of the registry are pairwise distinct (always true of a Python
dict; stated as a hypothesis where a theorem needs it). -/
def keysNodup (reg : Registry) : Prop := (reg.map Prod.fst).Nodup

/-- `get_project_root` from `hosting.py`:
`USERS_DIR / str(user_id) / f"project_{project_id}"`. -/
def get_project_root (user_id project_id : Int) : String :=
  USERS_DIR ++ "/" ++ toString user_id ++ "/project_" ++ toString project_id

/-- `get_log_path` from `hosting.py`:
`LOGS_DIR / str(user_id) / f"project_{project_id}.log"`. -/
def get_log_path (user_id project_id : Int) : String :=
  LOGS_DIR ++ "/" ++ toString user_id ++ "/project_" ++ toString project_id ++ ".log"

/-- Environment for `start_process` and the monitor: the metadata store
(`get_project`), the filesystem (`entry_path.exists()`), the OS process table
(`poll`), the clock, and the outcome of `subprocess.Popen` (`some pid` on
success, `none` when the constructor raises, with `spawn_err` the exception
text). -/
structure Env where
  projects : Int → Int → Option Project
  entry_exists : String → Bool
  poll : Nat → Option Int
  now : Nat
  spawn : Option Nat
  spawn_err : String

/-- Result of `start_process`: the `(bool, str)` tuple, the updated registry,
and whether `subprocess.Popen` was invoked. -/
structure StartResult where
  ok : Bool
  msg : String
  reg : Registry
  spawned : Bool
deriving DecidableEq

/-- `start_process` from `hosting.py` (lines 176-252), translated branch by
branch.  Opening the log file and writing the run banner are modelled as
side-effect free (the `open` call sits outside the `try` in the source and is
not a modelled failure). -/
def start_process (env : Env) (reg : Registry) (user_id project_id : Int) :
    StartResult :=
  let key := make_key user_id project_id
  let already :=
    match lookupR reg key with
    | some proc => (env.poll proc.pid).isNone
    | none => false
  if already then ⟨false, "❌ Project is already running", reg, false⟩
  else
    match env.projects user_id project_id with
    | none => ⟨false, "❌ Project not found", reg, false⟩
    | some p =>
      if isFalsy p.entry || isFalsy p.lang then
        ⟨false, "❌ Entry file or language not configured.\nUse ⚙️ Settings to configure.",
          reg, false⟩
      else
        let entry := p.entry.getD ""
        let lang := p.lang.getD ""
        let project_root := get_project_root user_id project_id
        let entry_path := project_root ++ "/" ++ entry
        if ¬ env.entry_exists entry_path then
          ⟨false, "❌ Entry file not found: " ++ entry, reg, false⟩
        else if lang ≠ "py" ∧ lang ≠ "js" then
          ⟨false, "❌ Unsupported language: " ++ lang, reg, false⟩
        else
          match env.spawn with
          | none => ⟨false, "❌ Failed to start: " ++ env.spawn_err, reg, true⟩
          | some pid =>
            ⟨true,
              "✅ <b>Started Successfully!</b>\n\n📦 Project: <b>" ++ p.name ++
                "</b>\n🆔 PID: <code>" ++ toString pid ++ "</code>",
              insertR reg key
                { user_id := user_id
                  project_id := project_id
                  entry_file := entry
                  language := lang
                  pid := pid
                  start_time := env.now
                  log_path := get_log_path user_id project_id
                  auto_restart := p.auto_restart ≠ 0 },
              true⟩

/-- A signal kind sent during termination. -/
inductive Sig where
  | term
  | kill
deriving DecidableEq, Repr

/-- One signal-send attempt recorded by `stop_process`: the kind, the target
pid, and whether the send raised (the source swallows the exception with
`try: ... except: pass`, so the flag never influences control flow). -/
structure SigEvent where
  sig : Sig
  target : Nat
  failed : Bool
deriving DecidableEq, Repr

/-- Environment for `stop_process`: the process table probe, the descendant
enumeration (`psutil.Process(pid).children(recursive=True)`), whether the
psutil lookup itself raises (`ps_ok = false` models the outer `except`
branch), per-pid signal failures, and whether `parent.wait(timeout=5)` raises
`psutil.TimeoutExpired`. -/
structure StopEnv where
  poll : Nat → Option Int
  children : Nat → List Nat
  ps_ok : Bool
  ps_err : String
  term_fails : Nat → Bool
  kill_fails : Nat → Bool
  wait_timeout : Bool

/-- `stop_process` from `hosting.py` (lines 254-306).  Returns the `(bool,
str)` tuple, the updated registry, and the trace of signal sends attempted. -/
def stop_process (env : StopEnv) (reg : Registry) (user_id project_id : Int) :
    (Bool × String) × Registry × List SigEvent :=
  let key := make_key user_id project_id
  match lookupR reg key with
  | none => ((false, "❌ Process is not running"), reg, [])
  | some proc =>
    if (env.poll proc.pid).isSome then
      ((true, "✅ Process was already stopped"), eraseR reg key, [])
    else if ¬ env.ps_ok then
      ((false, "❌ Error stopping process: " ++ env.ps_err), reg, [])
    else
      let kids := env.children proc.pid
      let termEvents :=
        kids.map (fun c => SigEvent.mk Sig.term c (env.term_fails c)) ++
          [SigEvent.mk Sig.term proc.pid (env.term_fails proc.pid)]
      let killEvents :=
        if env.wait_timeout then
          kids.map (fun c => SigEvent.mk Sig.kill c (env.kill_fails c)) ++
            [SigEvent.mk Sig.kill proc.pid (env.kill_fails proc.pid)]
        else []
      ((true, "✅ Process stopped"), eraseR reg key, termEvents ++ killEvents)

/-- `restart_process` from `hosting.py` (lines 308-322): stop only when the
key is registered, then (after `time.sleep(1)`) start.  `stopEnv` is the
world at the stop call, `startEnv` the world one second later at the start
call. -/
def restart_process (stopEnv : StopEnv) (startEnv : Env) (reg : Registry)
    (user_id project_id : Int) : (Bool × String) × Registry :=
  let key := make_key user_id project_id
  if (lookupR reg key).isSome then
    match stop_process stopEnv reg user_id project_id with
    | ((ok, msg), reg1, _) =>
      if ¬ ok then ((false, msg), reg1)
      else
        let r := start_process startEnv reg1 user_id project_id
        ((r.ok, r.msg), r.reg)
  else
    let r := start_process startEnv reg user_id project_id
    ((r.ok, r.msg), r.reg)

/-- Modelled from the spec (§4.5): the reference composition
"`restart(key)` = stop(key) then, after a short pause, start(key); if stop
fails, restart fails with the same error without attempting start", applied
unconditionally for every key.  Used to compare `restart_process` against the
spec's description. -/
def restart_spec (stopEnv : StopEnv) (startEnv : Env) (reg : Registry)
    (user_id project_id : Int) : (Bool × String) × Registry :=
  match stop_process stopEnv reg user_id project_id with
  | ((ok, msg), reg1, _) =>
    if ¬ ok then ((false, msg), reg1)
    else
      let r := start_process startEnv reg1 user_id project_id
      ((r.ok, r.msg), r.reg)

/-- The restart event emitted by one monitor pass over one record: the
record as last mutated before its removal (exit code recorded, counter
incremented, `backoff_until` set), and the computed backoff duration. -/
structure MonEvent where
  proc : RunningProcess
  backoff : Nat
deriving DecidableEq, Repr

/-- One iteration of `auto_restart_monitor` (lines 391-441) handling the
record of a single key, translated branch by branch: probe the exit code;
record it; skip when auto-restart is off or `now < backoff_until`; otherwise
increment `restart_count`, compute
`backoff = base * min(10, restart_count)`, set
`backoff_until = now + backoff`, sleep the backoff, delete the record and
call `start_process`.  `startEnv` is the world after the sleep (so
`startEnv.now` is the wall clock of the restart attempt). -/
def monitor_handle (env : Env) (startEnv : Env) (reg : Registry)
    (user_id project_id : Int) : Registry × Option MonEvent :=
  let key := make_key user_id project_id
  match lookupR reg key with
  | none => (reg, none)
  | some proc =>
    match env.poll proc.pid with
    | none => (reg, none)
    | some code =>
      let proc1 := { proc with last_exit_code := some code }
      let reg1 := insertR reg key proc1
      if ¬ proc1.auto_restart then (reg1, none)
      else if env.now < proc1.backoff_until then (reg1, none)
      else
        let proc2 := { proc1 with restart_count := proc1.restart_count + 1 }
        let backoff := AUTO_RESTART_BACKOFF_SEC * min 10 proc2.restart_count
        let proc3 := { proc2 with backoff_until := env.now + backoff }
        let reg2 := insertR reg1 key proc3
        let reg3 := eraseR reg2 key
        let r := start_process startEnv reg3 user_id project_id
        (r.reg, some ⟨proc3, backoff⟩)

/-- One entry of the `get_all_running` listing. -/
structure RunEntry where
  key : String
  user_id : Int
  project_id : Int
  pid : Nat
  uptime : Nat
  restarts : Nat
deriving DecidableEq, Repr

/-- `get_all_running` from `hosting.py` (lines 443-456): an entry per
registry record whose process still reports not-exited. -/
def get_all_running (env : Env) (reg : Registry) : List RunEntry :=
  reg.filterMap fun kv =>
    if env.poll kv.2.pid = none then
      some ⟨kv.1, kv.2.user_id, kv.2.project_id, kv.2.pid,
        env.now - kv.2.start_time, kv.2.restart_count⟩
    else none

/-!
## Log tailing (`read_logs`, lines 361-389)

The log file is modelled as its character content (the source reads bytes and
decodes with `errors='replace'`; for the line arithmetic the claims are about,
decoding is the identity and `str.splitlines` splits at `'\n'`).
-/

/-- Python `str.splitlines` restricted to `'\n'` separators:
`"".splitlines() = []`, a trailing newline does not produce a final empty
line, interior empty lines are kept. -/
def pySplitlines : List Char → List (List Char)
  | [] => []
  | c :: cs =>
    if c = '\n' then [] :: pySplitlines cs
    else
      match pySplitlines cs with
      | [] => [[c]]
      | l :: ls => (c :: l) :: ls

/-- The last `n` elements of a list. -/
def takeLast (n : Nat) (l : List α) : List α := l.drop (l.length - n)

/-- Python's negative slice `l[-n:]`; note `l[-0:]` is the whole list. -/
def pyLastSlice (n : Nat) (l : List α) : List α :=
  if n = 0 then l else takeLast n l

/-- Python's `'\n'.join` on lines. -/
def joinNl (ls : List (List Char)) : List Char := List.intercalate ['\n'] ls

/-- The backward block-reading loop of `read_logs`, with an explicit
iteration bound so that it computes by structural recursion: each loop step
decreases `size` by `min 8192 size ≥ 1`, so running it with `fuel = size`
performs exactly the iterations of the source's `while` loop. -/
def tailScanGo (content : List Char) (lines : Nat) : Nat → Nat → Nat
  | 0, size => size
  | fuel + 1, size =>
    if 0 < size ∧ (content.drop size).count '\n' ≤ lines then
      tailScanGo content lines fuel (size - min 8192 size)
    else size

/-- The backward block-reading loop of `read_logs`: starting from
`size = len(content)`, while `size > 0` and the suffix read so far has at
most `lines` newlines, step `size` down by one 8192-byte block.  Returns the
final `size`; the data the loop accumulated is `content.drop` of it. -/
def tailScan (content : List Char) (lines : Nat) (size : Nat) : Nat :=
  tailScanGo content lines size size

/-- A log file as `read_logs` sees it: whether `log_path.exists()`, its
content, and whether the read inside the `try` raises (with the exception
text). -/
structure LogFile where
  present : Bool
  content : List Char
  readErr : Option String

/-- `read_logs` from `hosting.py` (lines 361-389), translated branch by
branch: missing file sentinel, backward block read, decode, Python slice
`[-lines:]`, join, empty-list sentinel; any exception inside the `try`
becomes a displayable error string. -/
def read_logs (f : LogFile) (lines : Nat) : String :=
  if ¬ f.present then "📝 No logs yet"
  else
    match f.readErr with
    | some e => "❌ Error reading logs: " ++ e
    | none =>
      let finalSize := tailScan f.content lines f.content.length
      let data := f.content.drop finalSize
      let log_lines := pyLastSlice lines (pySplitlines data)
      if log_lines ≠ [] then String.mk (joinNl log_lines) else "📝 Log is empty"

/-- The same pipeline applied to a full read of the file (reference point for
"byte-identical to a full read's last n lines"). -/
def read_logs_full (f : LogFile) (lines : Nat) : String :=
  if ¬ f.present then "📝 No logs yet"
  else
    match f.readErr with
    | some e => "❌ Error reading logs: " ++ e
    | none =>
      let log_lines := pyLastSlice lines (pySplitlines f.content)
      if log_lines ≠ [] then String.mk (joinNl log_lines) else "📝 Log is empty"

/-!
## Dependency installer (`create_venv` / `install_requirements` /
`install_package`, lines 78-174)

`subprocess.run` outcomes are supplied by the environment: a completed run
with exit code and captured streams, a `TimeoutExpired`, or any other raised
exception (e.g. executable not found).  Each installer function additionally
returns the trace of external commands it invoked.
-/

/-- Outcome of one `subprocess.run` call. -/
inductive RunOutcome where
  | completed (returncode : Int) (stdout stderr : String)
  | timedOut (desc : String)
  | raised (desc : String)
deriving DecidableEq, Repr

/-- Did the run complete with exit code 0? -/
def RunOutcome.isOk : RunOutcome → Bool
  | .completed 0 _ _ => true
  | _ => false

/-- An external command the installer may invoke. -/
inductive Cmd where
  | venvCreate
  | pipInstallReq
  | pipInstallPkg (pkg : String)
  | pipShow (pkg : String)
deriving DecidableEq, Repr

/-- Environment for the installer functions: filesystem facts and the
outcome of each possible external invocation. -/
structure InstallEnv where
  venv_exists : Bool
  manifest_exists : Bool
  venv_create : RunOutcome
  pip_install : RunOutcome
  pip_show : RunOutcome

/-- Python `s[-n:]` on a string (used to truncate captured output). -/
def pyLastChars (n : Nat) (s : String) : String :=
  String.mk (pyLastSlice n s.data)

/-- `create_venv` from `hosting.py` (lines 78-99).  Note the source's
`except Exception` also catches `TimeoutExpired`, so a timeout surfaces as
"Error creating venv". -/
def create_venv (env : InstallEnv) : (Bool × String) × List Cmd :=
  if env.venv_exists then ((true, "Virtual environment already exists"), [])
  else
    match env.venv_create with
    | .completed rc _ err =>
      if rc = 0 then ((true, "✅ Virtual environment created"), [Cmd.venvCreate])
      else ((false, "❌ Failed to create venv:\n" ++ err), [Cmd.venvCreate])
    | .timedOut d => ((false, "❌ Error creating venv: " ++ d), [Cmd.venvCreate])
    | .raised d => ((false, "❌ Error creating venv: " ++ d), [Cmd.venvCreate])

/-- `install_requirements` from `hosting.py` (lines 101-132): requires
`requirements.txt`, ensures the venv, then runs
`pip install -r requirements.txt` with a 300 s timeout. -/
def install_requirements (env : InstallEnv) : (Bool × String) × List Cmd :=
  if ¬ env.manifest_exists then ((false, "❌ requirements.txt not found"), [])
  else
    match create_venv env with
    | ((venv_ok, venv_msg), tr) =>
      if ¬ venv_ok then ((false, venv_msg), tr)
      else
        match env.pip_install with
        | .completed rc out err =>
          if rc = 0 then
            ((true, "✅ Dependencies installed successfully!\n\n" ++ pyLastChars 500 out),
              tr ++ [Cmd.pipInstallReq])
          else
            ((false, "❌ Installation failed:\n\n" ++ pyLastChars 1000 err),
              tr ++ [Cmd.pipInstallReq])
        | .timedOut _ =>
          ((false, "❌ Installation timeout (>5 minutes)"), tr ++ [Cmd.pipInstallReq])
        | .raised d =>
          ((false, "❌ Installation error: " ++ d), tr ++ [Cmd.pipInstallReq])

/-- First `Version:` line of `pip show` output, as parsed by
`install_package` (`line.split(':', 1)[1].strip()`), default `"unknown"`. -/
def extractVersion : List String → String
  | [] => "unknown"
  | l :: ls => if l.startsWith "Version:" then (l.drop 8).trim else extractVersion ls

/-- `install_package` from `hosting.py` (lines 134-174): ensures the venv,
runs `pip install <pkg>` with a 180 s timeout, and on success queries
`pip show <pkg>` (10 s timeout) for the version — a timeout or exception in
that query is caught by the same handlers. -/
def install_package (env : InstallEnv) (pkg : String) : (Bool × String) × List Cmd :=
  match create_venv env with
  | ((venv_ok, venv_msg), tr) =>
    if ¬ venv_ok then ((false, venv_msg), tr)
    else
      match env.pip_install with
      | .completed rc _ err =>
        if rc = 0 then
          match env.pip_show with
          | .completed src out _ =>
            let version := if src = 0 then extractVersion (out.splitOn "\n") else "unknown"
            ((true, "✅ Installed " ++ pkg ++ " v" ++ version),
              tr ++ [Cmd.pipInstallPkg pkg, Cmd.pipShow pkg])
          | .timedOut _ =>
            ((false, "❌ Installation timeout"), tr ++ [Cmd.pipInstallPkg pkg, Cmd.pipShow pkg])
          | .raised d =>
            ((false, "❌ Error: " ++ d), tr ++ [Cmd.pipInstallPkg pkg, Cmd.pipShow pkg])
        else
          ((false, "❌ Failed to install:\n" ++ pyLastChars 500 err),
            tr ++ [Cmd.pipInstallPkg pkg])
      | .timedOut _ =>
        ((false, "❌ Installation timeout"), tr ++ [Cmd.pipInstallPkg pkg])
      | .raised d =>
        ((false, "❌ Error: " ++ d), tr ++ [Cmd.pipInstallPkg pkg])

/-!
## Concrete fixtures

A worked crash chain for project `(1, 1)`: launched at time 100 with pid 41,
crashing at 200 (restarted at 203 with pid 42), crashing again at 300
(restarted at 303 with pid 43), plus environments exercising the other
branches.  Used by the closed-form counterexamples and witnesses below.
-/

def demoProject : Project := ⟨"demo", some "main.py", some "py", 1⟩

def envLaunch : Env := ⟨fun _ _ => some demoProject, fun _ => true, fun _ => none, 100, some 41, ""⟩

def envCrash1 : Env := ⟨fun _ _ => some demoProject, fun _ => true, fun _ => some 1, 200, none, ""⟩

def envRestart1 : Env := ⟨fun _ _ => some demoProject, fun _ => true, fun _ => none, 203, some 42, ""⟩

def envCrash2 : Env := ⟨fun _ _ => some demoProject, fun _ => true, fun _ => some 1, 300, none, ""⟩

def envRestart2 : Env := ⟨fun _ _ => some demoProject, fun _ => true, fun _ => none, 303, some 43, ""⟩

def chainReg0 : Registry := (start_process envLaunch [] 1 1).reg

def chainReg1 : Registry := (monitor_handle envCrash1 envRestart1 chainReg0 1 1).1

def stopEnvBasic : StopEnv :=
  ⟨fun _ => none, fun _ => [], true, "", fun _ => false, fun _ => false, false⟩

def envNoEntry : Env :=
  ⟨fun _ _ => some demoProject, fun _ => false, fun _ => none, 100, some 41, ""⟩

def stopEnvHostile : StopEnv :=
  ⟨fun _ => none, fun p => if p = 41 then [77] else [], true, "",
    fun _ => true, fun _ => true, true⟩

def installEnvNoManifest : InstallEnv :=
  ⟨true, false, RunOutcome.completed 0 "" "", RunOutcome.completed 0 "" "",
    RunOutcome.completed 0 "" ""⟩

def installEnvPipRaises : InstallEnv :=
  ⟨true, true, RunOutcome.completed 0 "" "", RunOutcome.raised "pip not found",
    RunOutcome.completed 0 "" ""⟩

def installEnvShowFails : InstallEnv :=
  ⟨true, true, RunOutcome.completed 0 "" "", RunOutcome.completed 0 "" "",
    RunOutcome.completed 1 "" "boom"⟩

/-!
## Registry lemmas (Python dict algebra)
-/

theorem lookupR_insertR_self (reg : Registry) (k : String) (v : RunningProcess) :
    lookupR (insertR reg k v) k = some v := by
  induction reg with
  | nil => simp [insertR, lookupR]
  | cons kv rest ih =>
    obtain ⟨k', w⟩ := kv
    by_cases h : k' = k
    · subst h
      simp [insertR, lookupR]
    · simp [insertR, lookupR, h, ih]

theorem keys_insertR (reg : Registry) (k : String) (v : RunningProcess) :
    (insertR reg k v).map Prod.fst =
      if k ∈ reg.map Prod.fst then reg.map Prod.fst else reg.map Prod.fst ++ [k] := by
  induction reg with
  | nil => simp [insertR]
  | cons kv rest ih =>
    obtain ⟨k', w⟩ := kv
    by_cases h : k' = k
    · subst h
      simp [insertR]
    · have h' : ¬ k = k' := fun hk => h hk.symm
      simp only [insertR, if_neg h, List.map_cons, ih, List.mem_cons]
      by_cases hm : k ∈ rest.map Prod.fst
      · simp [hm, h']
      · simp [hm, h']

theorem keysNodup_insertR (reg : Registry) (k : String) (v : RunningProcess)
    (h : keysNodup reg) : keysNodup (insertR reg k v) := by
  unfold keysNodup at *
  rw [keys_insertR]
  by_cases hm : k ∈ reg.map Prod.fst
  · simpa [hm] using h
  · simp only [hm, if_false]
    exact List.Nodup.append h (List.nodup_singleton k) (by simpa using hm)

theorem lookupR_of_not_mem (reg : Registry) (k : String)
    (h : k ∉ reg.map Prod.fst) : lookupR reg k = none := by
  induction reg with
  | nil => simp [lookupR]
  | cons kv rest ih =>
    obtain ⟨k', w⟩ := kv
    simp only [List.map_cons, List.mem_cons, not_or] at h
    have hk : ¬ k' = k := fun hh => h.1 hh.symm
    simp only [lookupR, if_neg hk]
    exact ih h.2

theorem lookupR_eraseR_self (reg : Registry) (k : String) (h : keysNodup reg) :
    lookupR (eraseR reg k) k = none := by
  induction reg with
  | nil => simp [eraseR, lookupR]
  | cons kv rest ih =>
    obtain ⟨k', w⟩ := kv
    unfold keysNodup at h
    simp only [List.map_cons, List.nodup_cons] at h
    by_cases hk : k' = k
    · subst hk
      simp only [eraseR, if_pos rfl]
      exact lookupR_of_not_mem rest k' h.1
    · simp only [eraseR, if_neg hk, lookupR, if_neg hk]
      exact ih h.2

theorem mem_of_lookupR (reg : Registry) (k : String) (r : RunningProcess)
    (h : lookupR reg k = some r) : (k, r) ∈ reg := by
  induction reg with
  | nil => simp [lookupR] at h
  | cons kv rest ih =>
    obtain ⟨k', w⟩ := kv
    simp only [lookupR] at h
    split at h
    · next heq =>
      obtain rfl : w = r := by injection h
      subst heq
      exact List.mem_cons_self _ _
    · exact List.mem_cons_of_mem _ (ih h)

theorem lookupR_of_mem_nodup (reg : Registry) (k : String) (r : RunningProcess)
    (hnd : keysNodup reg) (h : (k, r) ∈ reg) : lookupR reg k = some r := by
  induction reg with
  | nil => simp at h
  | cons kv rest ih =>
    obtain ⟨k', w⟩ := kv
    unfold keysNodup at hnd
    simp only [List.map_cons, List.nodup_cons] at hnd
    rcases List.mem_cons.mp h with h1 | h2
    · cases h1
      simp [lookupR]
    · have hk : ¬ k' = k := by
        intro hh
        subst hh
        exact hnd.1 (List.mem_map_of_mem Prod.fst h2)
      simp only [lookupR, if_neg hk]
      exact ih hnd.2 h2

/-!
## `start_process` characterizations
-/

theorem start_process_fresh (env : Env) (reg : Registry) (uid pid : Int)
    (h : lookupR reg (make_key uid pid) = none) (r' : RunningProcess)
    (h' : lookupR (start_process env reg uid pid).reg (make_key uid pid) = some r') :
    r'.restart_count = 0 ∧ r'.backoff_until = 0 ∧ r'.start_time = env.now ∧
      r'.last_exit_code = none := by
  simp only [start_process, h] at h'
  repeat' split at h'
  all_goals dsimp only at h'
  any_goals (rw [h] at h'; exact absurd h' (by simp))
  rw [lookupR_insertR_self] at h'
  obtain rfl := (Option.some.injEq _ _).mp h'
  exact ⟨rfl, rfl, rfl, rfl⟩

theorem start_process_ok_reg (env : Env) (reg : Registry) (uid pid : Int)
    (h : (start_process env reg uid pid).ok = true) :
    (start_process env reg uid pid).spawned = true ∧
      ∃ q p, env.spawn = some q ∧ env.projects uid pid = some p ∧
        (start_process env reg uid pid).reg = insertR reg (make_key uid pid)
          { user_id := uid
            project_id := pid
            entry_file := p.entry.getD ""
            language := p.lang.getD ""
            pid := q
            start_time := env.now
            log_path := get_log_path uid pid
            auto_restart := p.auto_restart ≠ 0 } := by
  simp only [start_process] at h ⊢
  repeat' split
  all_goals simp_all

/-!
## String prefix discrimination (used to tell the error messages apart)
-/

theorem str_append_ne_fixed (p q e : String) (i : Nat) (hi : i < p.data.length)
    (hne : p.data[i]? ≠ q.data[i]?) : p ++ e ≠ q := by
  intro h
  apply hne
  have h2 : p.data ++ e.data = q.data := by rw [← String.data_append, h]
  calc p.data[i]? = (p.data ++ e.data)[i]? := by rw [List.getElem?_append, if_pos hi]
    _ = q.data[i]? := by rw [h2]

theorem str_append_ne_append (p q e f : String) (i : Nat) (hp : i < p.data.length)
    (hq : i < q.data.length) (hne : p.data[i]? ≠ q.data[i]?) : p ++ e ≠ q ++ f := by
  intro h
  apply hne
  have h2 : p.data ++ e.data = q.data ++ f.data := by
    rw [← String.data_append, ← String.data_append, h]
  calc p.data[i]? = (p.data ++ e.data)[i]? := by rw [List.getElem?_append, if_pos hp]
    _ = (q.data ++ f.data)[i]? := by rw [h2]
    _ = q.data[i]? := by rw [List.getElem?_append, if_pos hq]

/-!
## The five `start_process` failure conditions, as the specification states
them
-/

/-- AlreadyRunning condition: the registry holds a record whose process has
not exited. -/
def cond_already (env : Env) (reg : Registry) (uid pid : Int) : Prop :=
  ∃ proc, lookupR reg (make_key uid pid) = some proc ∧ env.poll proc.pid = none

/-- NotFound condition: the project does not exist in the metadata store. -/
def cond_notfound (env : Env) (uid pid : Int) : Prop :=
  env.projects uid pid = none

/-- NotConfigured condition: entry file or runtime kind unset (Python-falsy). -/
def cond_notconfigured (env : Env) (uid pid : Int) : Prop :=
  ∃ p, env.projects uid pid = some p ∧ (isFalsy p.entry = true ∨ isFalsy p.lang = true)

/-- MissingEntryFile condition: configured, but the resolved entry path does
not exist on disk. -/
def cond_missing_entry (env : Env) (uid pid : Int) : Prop :=
  ∃ p, env.projects uid pid = some p ∧ isFalsy p.entry = false ∧ isFalsy p.lang = false ∧
    env.entry_exists (get_project_root uid pid ++ "/" ++ p.entry.getD "") = false

/-- UnsupportedLanguage condition: configured, entry present on disk, but the
runtime kind is neither `py` nor `js`. -/
def cond_unsupported (env : Env) (uid pid : Int) : Prop :=
  ∃ p, env.projects uid pid = some p ∧ isFalsy p.entry = false ∧ isFalsy p.lang = false ∧
    env.entry_exists (get_project_root uid pid ++ "/" ++ p.entry.getD "") = true ∧
    p.lang.getD "" ≠ "py" ∧ p.lang.getD "" ≠ "js"

theorem start_iff_already (env : Env) (reg : Registry) (uid pid : Int) :
    start_process env reg uid pid =
        StartResult.mk false "❌ Project is already running" reg false ↔
      cond_already env reg uid pid := by
  constructor
  · intro h
    simp only [start_process] at h
    split at h
    · next halready =>
      rcases hl : lookupR reg (make_key uid pid) with _ | proc
      · rw [hl] at halready
        simp at halready
      · rw [hl] at halready
        simp only [Option.isNone_iff_eq_none] at halready
        exact ⟨proc, hl, halready⟩
    · split at h
      · have hm := congrArg StartResult.msg h
        simp at hm
      · split at h
        · have hm := congrArg StartResult.msg h
          simp at hm
        · split at h
          · have hm := congrArg StartResult.msg h
            dsimp only at hm
            exact absurd hm (str_append_ne_fixed "❌ Entry file not found: "
              "❌ Project is already running" _ 2 (by decide) (by decide))
          · split at h
            · have hm := congrArg StartResult.msg h
              dsimp only at hm
              exact absurd hm (str_append_ne_fixed "❌ Unsupported language: "
                "❌ Project is already running" _ 2 (by decide) (by decide))
            · split at h
              · have hs := congrArg StartResult.spawned h
                simp at hs
              · have ho := congrArg StartResult.ok h
                simp at ho
  · rintro ⟨proc, hl, hp⟩
    simp [start_process, hl, hp]

theorem start_iff_notfound (env : Env) (reg : Registry) (uid pid : Int) :
    start_process env reg uid pid = StartResult.mk false "❌ Project not found" reg false ↔
      ¬ cond_already env reg uid pid ∧ cond_notfound env uid pid := by
  constructor
  · intro h
    simp only [start_process] at h
    split at h
    · have hm := congrArg StartResult.msg h
      simp at hm
    · next halready =>
      have hnal : ¬ cond_already env reg uid pid := by
        rintro ⟨proc, hl, hp⟩
        rw [hl] at halready
        simp [hp] at halready
      split at h
      · next heq => exact ⟨hnal, heq⟩
      · split at h
        · have hm := congrArg StartResult.msg h
          simp at hm
        · split at h
          · have hm := congrArg StartResult.msg h
            dsimp only at hm
            exact absurd hm (str_append_ne_fixed "❌ Entry file not found: "
              "❌ Project not found" _ 2 (by decide) (by decide))
          · split at h
            · have hm := congrArg StartResult.msg h
              dsimp only at hm
              exact absurd hm (str_append_ne_fixed "❌ Unsupported language: "
                "❌ Project not found" _ 2 (by decide) (by decide))
            · split at h
              · have hs := congrArg StartResult.spawned h
                simp at hs
              · have ho := congrArg StartResult.ok h
                simp at ho
  · rintro ⟨hnal, hnf⟩
    have hnf' : env.projects uid pid = none := hnf
    rcases hl : lookupR reg (make_key uid pid) with _ | proc
    · simp [start_process, hl, hnf']
    · rcases hp : env.poll proc.pid with _ | c
      · exact absurd ⟨proc, hl, hp⟩ hnal
      · simp [start_process, hl, hp, hnf']

theorem start_iff_notconfigured (env : Env) (reg : Registry) (uid pid : Int) :
    start_process env reg uid pid = StartResult.mk false
        "❌ Entry file or language not configured.\nUse ⚙️ Settings to configure." reg false ↔
      ¬ cond_already env reg uid pid ∧ cond_notconfigured env uid pid := by
  constructor
  · intro h
    simp only [start_process] at h
    split at h
    · have hm := congrArg StartResult.msg h
      simp at hm
    · next halready =>
      have hnal : ¬ cond_already env reg uid pid := by
        rintro ⟨proc, hl, hp⟩
        rw [hl] at halready
        simp [hp] at halready
      split at h
      · have hm := congrArg StartResult.msg h
        simp at hm
      · next p heq =>
        split at h
        · next hcond => exact ⟨hnal, p, heq, by simpa using hcond⟩
        · split at h
          · have hm := congrArg StartResult.msg h
            dsimp only at hm
            exact absurd hm (str_append_ne_fixed "❌ Entry file not found: "
              "❌ Entry file or language not configured.\nUse ⚙️ Settings to configure."
              _ 13 (by decide) (by decide))
          · split at h
            · have hm := congrArg StartResult.msg h
              dsimp only at hm
              exact absurd hm (str_append_ne_fixed "❌ Unsupported language: "
                "❌ Entry file or language not configured.\nUse ⚙️ Settings to configure."
                _ 2 (by decide) (by decide))
            · split at h
              · have hs := congrArg StartResult.spawned h
                simp at hs
              · have ho := congrArg StartResult.ok h
                simp at ho
  · rintro ⟨hnal, p, hp, hor⟩
    have hcond : (isFalsy p.entry || isFalsy p.lang) = true := by
      rcases hor with h1 | h1 <;> simp [h1]
    rcases hl : lookupR reg (make_key uid pid) with _ | proc
    · simp [start_process, hl, hp, hcond]
    · rcases hpo : env.poll proc.pid with _ | c
      · exact absurd ⟨proc, hl, hpo⟩ hnal
      · simp [start_process, hl, hpo, hp, hcond]

theorem start_iff_missing_entry (env : Env) (reg : Registry) (uid pid : Int)
    (p : Project) (hp : env.projects uid pid = some p) :
    start_process env reg uid pid = StartResult.mk false
        ("❌ Entry file not found: " ++ p.entry.getD "") reg false ↔
      ¬ cond_already env reg uid pid ∧ isFalsy p.entry = false ∧ isFalsy p.lang = false ∧
        env.entry_exists (get_project_root uid pid ++ "/" ++ p.entry.getD "") = false := by
  constructor
  · intro h
    simp only [start_process] at h
    split at h
    · have hm := congrArg StartResult.msg h
      dsimp only at hm
      exact absurd hm.symm (str_append_ne_fixed "❌ Entry file not found: "
        "❌ Project is already running" _ 2 (by decide) (by decide))
    · next halready =>
      have hnal : ¬ cond_already env reg uid pid := by
        rintro ⟨proc, hl, hpo⟩
        rw [hl] at halready
        simp [hpo] at halready
      split at h
      · next heq =>
        rw [hp] at heq
        simp at heq
      · next p' heq =>
        rw [hp] at heq
        have hpp : p = p' := by injection heq
        subst hpp
        split at h
        · have hm := congrArg StartResult.msg h
          dsimp only at hm
          exact absurd hm.symm (str_append_ne_fixed "❌ Entry file not found: "
            "❌ Entry file or language not configured.\nUse ⚙️ Settings to configure."
            _ 13 (by decide) (by decide))
        · next hcond =>
          have hff : isFalsy p.entry = false ∧ isFalsy p.lang = false := by
            constructor <;> simp_all
          split at h
          · next hex => exact ⟨hnal, hff.1, hff.2, by simpa using hex⟩
          · split at h
            · have hm := congrArg StartResult.msg h
              dsimp only at hm
              exact absurd hm (str_append_ne_append "❌ Unsupported language: "
                "❌ Entry file not found: " _ _ 2 (by decide) (by decide) (by decide))
            · split at h
              · have hs := congrArg StartResult.spawned h
                simp at hs
              · have ho := congrArg StartResult.ok h
                simp at ho
  · rintro ⟨hnal, hfe, hfl, hex⟩
    rcases hl : lookupR reg (make_key uid pid) with _ | proc
    · simp [start_process, hl, hp, hfe, hfl, hex]
    · rcases hpo : env.poll proc.pid with _ | c
      · exact absurd ⟨proc, hl, hpo⟩ hnal
      · simp [start_process, hl, hpo, hp, hfe, hfl, hex]

theorem start_iff_unsupported (env : Env) (reg : Registry) (uid pid : Int)
    (p : Project) (hp : env.projects uid pid = some p) :
    start_process env reg uid pid = StartResult.mk false
        ("❌ Unsupported language: " ++ p.lang.getD "") reg false ↔
      ¬ cond_already env reg uid pid ∧ isFalsy p.entry = false ∧ isFalsy p.lang = false ∧
        env.entry_exists (get_project_root uid pid ++ "/" ++ p.entry.getD "") = true ∧
        p.lang.getD "" ≠ "py" ∧ p.lang.getD "" ≠ "js" := by
  constructor
  · intro h
    simp only [start_process] at h
    split at h
    · have hm := congrArg StartResult.msg h
      dsimp only at hm
      exact absurd hm.symm (str_append_ne_fixed "❌ Unsupported language: "
        "❌ Project is already running" _ 2 (by decide) (by decide))
    · next halready =>
      have hnal : ¬ cond_already env reg uid pid := by
        rintro ⟨proc, hl, hpo⟩
        rw [hl] at halready
        simp [hpo] at halready
      split at h
      · next heq =>
        rw [hp] at heq
        simp at heq
      · next p' heq =>
        rw [hp] at heq
        have hpp : p = p' := by injection heq
        subst hpp
        split at h
        · have hm := congrArg StartResult.msg h
          dsimp only at hm
          exact absurd hm.symm (str_append_ne_fixed "❌ Unsupported language: "
            "❌ Entry file or language not configured.\nUse ⚙️ Settings to configure."
            _ 2 (by decide) (by decide))
        · next hcond =>
          have hff : isFalsy p.entry = false ∧ isFalsy p.lang = false := by
            constructor <;> simp_all
          split at h
          · have hm := congrArg StartResult.msg h
            dsimp only at hm
            exact absurd hm (str_append_ne_append "❌ Entry file not found: "
              "❌ Unsupported language: " _ _ 2 (by decide) (by decide) (by decide))
          · next hex =>
            split at h
            · next hlang => exact ⟨hnal, hff.1, hff.2, by simpa using hex, hlang.1, hlang.2⟩
            · split at h
              · have hs := congrArg StartResult.spawned h
                simp at hs
              · have ho := congrArg StartResult.ok h
                simp at ho
  · rintro ⟨hnal, hfe, hfl, hex, hpy, hjs⟩
    rcases hl : lookupR reg (make_key uid pid) with _ | proc
    · simp [start_process, hl, hp, hfe, hfl, hex, hpy, hjs]
    · rcases hpo : env.poll proc.pid with _ | c
      · exact absurd ⟨proc, hl, hpo⟩ hnal
      · simp [start_process, hl, hpo, hp, hfe, hfl, hex, hpy, hjs]

theorem monitor_handle_skip (env startEnv : Env) (reg : Registry) (uid pid : Int)
    (proc : RunningProcess) (code : Int)
    (hl : lookupR reg (make_key uid pid) = some proc)
    (hp : env.poll proc.pid = some code)
    (ha : proc.auto_restart = true)
    (hb : env.now < proc.backoff_until) :
    monitor_handle env startEnv reg uid pid =
      (insertR reg (make_key uid pid) { proc with last_exit_code := some code }, none) := by
  simp [monitor_handle, hl, hp, ha, hb]

theorem monitor_handle_fire (env startEnv : Env) (reg : Registry) (uid pid : Int)
    (proc : RunningProcess) (code : Int)
    (hl : lookupR reg (make_key uid pid) = some proc)
    (hp : env.poll proc.pid = some code)
    (ha : proc.auto_restart = true)
    (hb : proc.backoff_until ≤ env.now) :
    monitor_handle env startEnv reg uid pid =
      ((start_process startEnv
          (eraseR
            (insertR (insertR reg (make_key uid pid) { proc with last_exit_code := some code })
              (make_key uid pid)
              { proc with
                  last_exit_code := some code
                  restart_count := proc.restart_count + 1
                  backoff_until := env.now +
                    AUTO_RESTART_BACKOFF_SEC * min 10 (proc.restart_count + 1) })
            (make_key uid pid)) uid pid).reg,
        some ⟨{ proc with
                  last_exit_code := some code
                  restart_count := proc.restart_count + 1
                  backoff_until := env.now +
                    AUTO_RESTART_BACKOFF_SEC * min 10 (proc.restart_count + 1) },
              AUTO_RESTART_BACKOFF_SEC * min 10 (proc.restart_count + 1)⟩) := by
  simp [monitor_handle, hl, hp, ha, Nat.not_lt.mpr hb]

/-- C1 (amended): when the Monitor handles a crashed auto-restart record it
skips any restart attempt while `now < backoff_until` (only recording the
exit code), and otherwise computes a backoff equal to
`AUTO_RESTART_BACKOFF_SEC * min 10 (restart_count + 1)` of the crashed
record, sets the record's `backoff_until` to `now + backoff`, and restarts
only after sleeping that backoff (so the restart time `startEnv.now` is not
before the `backoff_until` just set).  The record created by the restart has
`restart_count = 0` and `backoff_until = 0`, so in an uninterrupted crash
chain every computed backoff equals `base * min 10 1`, not
`base * min 10 N`. -/
theorem C1_monitor_backoff (env startEnv : Env) (reg : Registry) (uid pid : Int)
    (proc : RunningProcess) (code : Int)
    (hnd : keysNodup reg)
    (hl : lookupR reg (make_key uid pid) = some proc)
    (hp : env.poll proc.pid = some code)
    (ha : proc.auto_restart = true) :
    (env.now < proc.backoff_until →
      monitor_handle env startEnv reg uid pid =
        (insertR reg (make_key uid pid) { proc with last_exit_code := some code }, none)) ∧
    (proc.backoff_until ≤ env.now →
      ∃ ev, (monitor_handle env startEnv reg uid pid).2 = some ev ∧
        ev.backoff = AUTO_RESTART_BACKOFF_SEC * min 10 (proc.restart_count + 1) ∧
        ev.proc.backoff_until = env.now + ev.backoff ∧
        (env.now + ev.backoff ≤ startEnv.now → ev.proc.backoff_until ≤ startEnv.now) ∧
        (∀ r', lookupR (monitor_handle env startEnv reg uid pid).1 (make_key uid pid) = some r' →
          r'.restart_count = 0 ∧ r'.backoff_until = 0)) := by
  constructor
  · intro hb
    exact monitor_handle_skip env startEnv reg uid pid proc code hl hp ha hb
  · intro hb
    rw [monitor_handle_fire env startEnv reg uid pid proc code hl hp ha hb]
    refine ⟨_, rfl, rfl, rfl, fun h => h, ?_⟩
    intro r' hr'
    have hnd2 : keysNodup
        (insertR (insertR reg (make_key uid pid) { proc with last_exit_code := some code })
          (make_key uid pid)
          { proc with
              last_exit_code := some code
              restart_count := proc.restart_count + 1
              backoff_until := env.now +
                AUTO_RESTART_BACKOFF_SEC * min 10 (proc.restart_count + 1) }) :=
      keysNodup_insertR _ _ _ (keysNodup_insertR _ _ _ hnd)
    have hnone := lookupR_eraseR_self _ (make_key uid pid) hnd2
    obtain ⟨h1, h2, -, -⟩ := start_process_fresh startEnv _ uid pid hnone r' hr'
    exact ⟨h1, h2⟩

/-- C2 (amended): while handling one crash the Monitor increments the
record's `restart_count` by exactly one and never decreases its
`backoff_until`; but the record created by the automatic restart has
`restart_count = 0` and `backoff_until = 0` — both counters are reset across
the record chain, not preserved. -/
theorem C2_restart_state (env startEnv : Env) (reg : Registry) (uid pid : Int)
    (proc : RunningProcess) (code : Int)
    (hnd : keysNodup reg)
    (hl : lookupR reg (make_key uid pid) = some proc)
    (hp : env.poll proc.pid = some code)
    (ha : proc.auto_restart = true)
    (hb : proc.backoff_until ≤ env.now) :
    ∃ ev, (monitor_handle env startEnv reg uid pid).2 = some ev ∧
      ev.proc.restart_count = proc.restart_count + 1 ∧
      proc.backoff_until ≤ ev.proc.backoff_until ∧
      (∀ r', lookupR (monitor_handle env startEnv reg uid pid).1 (make_key uid pid) = some r' →
        r'.restart_count = 0 ∧ r'.backoff_until = 0) := by
  rw [monitor_handle_fire env startEnv reg uid pid proc code hl hp ha hb]
  refine ⟨_, rfl, rfl, ?_, ?_⟩
  · exact le_trans hb (Nat.le_add_right _ _)
  · intro r' hr'
    have hnd2 : keysNodup
        (insertR (insertR reg (make_key uid pid) { proc with last_exit_code := some code })
          (make_key uid pid)
          { proc with
              last_exit_code := some code
              restart_count := proc.restart_count + 1
              backoff_until := env.now +
                AUTO_RESTART_BACKOFF_SEC * min 10 (proc.restart_count + 1) }) :=
      keysNodup_insertR _ _ _ (keysNodup_insertR _ _ _ hnd)
    have hnone := lookupR_eraseR_self _ (make_key uid pid) hnd2
    obtain ⟨h1, h2, -, -⟩ := start_process_fresh startEnv _ uid pid hnone r' hr'
    exact ⟨h1, h2⟩

/-- C1 (counterexample): in the concrete two-crash chain the backoff the
Monitor computes before the second automatic restart is 3 (= base * 1), not
`AUTO_RESTART_BACKOFF_SEC * min 10 2 = 6` as the claim's formula demands for
N = 2. -/
theorem C1_counterexample :
    ((monitor_handle envCrash2 envRestart2 chainReg1 1 1).2.map MonEvent.backoff) = some 3 ∧
      AUTO_RESTART_BACKOFF_SEC * min 10 2 = 6 := by decide

/-- C2 (counterexample): in the concrete chain the crashed record reaches
`restart_count = 1` and `backoff_until = 203`, yet the successor record
created by the automatic restart holds `restart_count = 0` and
`backoff_until = 0`: both decreased. -/
theorem C2_counterexample :
    ((monitor_handle envCrash1 envRestart1 chainReg0 1 1).2.map
        (fun ev => (ev.proc.restart_count, ev.proc.backoff_until))) = some (1, 203) ∧
      (lookupR chainReg1 "1:1").map (fun r => (r.restart_count, r.backoff_until)) =
        some (0, 0) := by decide

/-- C1 witness: the amended theorem applied to the first crash of the
concrete chain. -/
theorem C1_monitor_backoff_witness :
    ∃ ev, (monitor_handle envCrash1 envRestart1 chainReg0 1 1).2 = some ev ∧
      ev.backoff = AUTO_RESTART_BACKOFF_SEC * min 10 1 := by
  obtain ⟨-, h⟩ := C1_monitor_backoff envCrash1 envRestart1 chainReg0 1 1
    ⟨1, 1, "main.py", "py", 41, 100, "logs/1/project_1.log", true, 0, none, 0⟩ 1
    (by unfold keysNodup; decide) (by decide) (by decide) (by decide)
  obtain ⟨ev, hev, hbk, -⟩ := h (by decide)
  exact ⟨ev, hev, by rw [hbk]⟩

/-- C2 witness: the amended theorem applied to the first crash of the
concrete chain. -/
theorem C2_restart_state_witness :
    ∃ ev, (monitor_handle envCrash1 envRestart1 chainReg0 1 1).2 = some ev ∧
      ev.proc.restart_count = 1 := by
  obtain ⟨ev, hev, hrc, -⟩ := C2_restart_state envCrash1 envRestart1 chainReg0 1 1
    ⟨1, 1, "main.py", "py", 41, 100, "logs/1/project_1.log", true, 0, none, 0⟩ 1
    (by unfold keysNodup; decide) (by decide) (by decide) (by decide) (by decide)
  exact ⟨ev, hev, by rw [hrc]⟩

theorem stop_process_ok_reg (env : StopEnv) (reg : Registry) (uid pid : Int)
    (h : (stop_process env reg uid pid).1.1 = true) :
    (stop_process env reg uid pid).2.1 = eraseR reg (make_key uid pid) := by
  simp only [stop_process] at h ⊢
  repeat' split
  all_goals simp_all

/-- C3 (amended): for a key present in the registry, `restart_process`
equals the spec's stop-then-start composition `restart_spec`; if stop fails
the same failure is returned with stop's registry (start is not reached);
after a successful stop the new record for the key has `restart_count = 0`
and `start_time = startEnv.now`, strictly later than the old record's
whenever the clock advanced.  For a key with no record, however,
`restart_process` skips stop and calls start directly, whereas the literal
composition fails with NotRunning. -/
theorem C3_restart_refines (stopEnv : StopEnv) (startEnv : Env) (reg : Registry)
    (uid pid : Int) :
    ((lookupR reg (make_key uid pid)).isSome = true →
        restart_process stopEnv startEnv reg uid pid =
          restart_spec stopEnv startEnv reg uid pid) ∧
    (lookupR reg (make_key uid pid) = none →
        restart_process stopEnv startEnv reg uid pid =
          (((start_process startEnv reg uid pid).ok, (start_process startEnv reg uid pid).msg),
            (start_process startEnv reg uid pid).reg)) ∧
    ((stop_process stopEnv reg uid pid).1.1 = false →
      (lookupR reg (make_key uid pid)).isSome = true →
        restart_process stopEnv startEnv reg uid pid =
          ((false, (stop_process stopEnv reg uid pid).1.2),
            (stop_process stopEnv reg uid pid).2.1)) ∧
    (keysNodup reg →
      (stop_process stopEnv reg uid pid).1.1 = true →
      ∀ proc, lookupR reg (make_key uid pid) = some proc →
      ∀ r', lookupR (restart_process stopEnv startEnv reg uid pid).2 (make_key uid pid) = some r' →
        r'.restart_count = 0 ∧ r'.start_time = startEnv.now ∧
          (proc.start_time < startEnv.now → proc.start_time < r'.start_time)) := by
  refine ⟨?_, ?_, ?_, ?_⟩
  · intro hs
    simp [restart_process, restart_spec, hs]
  · intro hn
    simp [restart_process, hn]
  · intro hfail hs
    rcases hst : stop_process stopEnv reg uid pid with ⟨⟨ok, msg⟩, reg1, tr⟩
    rw [hst] at hfail
    simp at hfail
    subst hfail
    simp [restart_process, hs, hst]
  · intro hnd hok proc hlp r' hr'
    have hs : (lookupR reg (make_key uid pid)).isSome = true := by rw [hlp]; rfl
    have hreg1 := stop_process_ok_reg stopEnv reg uid pid hok
    rcases hst : stop_process stopEnv reg uid pid with ⟨⟨ok, msg⟩, reg1, tr⟩
    rw [hst] at hok hreg1
    simp at hok hreg1
    subst hok
    subst hreg1
    rw [show restart_process stopEnv startEnv reg uid pid =
        (((start_process startEnv (eraseR reg (make_key uid pid)) uid pid).ok,
          (start_process startEnv (eraseR reg (make_key uid pid)) uid pid).msg),
          (start_process startEnv (eraseR reg (make_key uid pid)) uid pid).reg) from by
      simp [restart_process, hs, hst]] at hr'
    have hnone := lookupR_eraseR_self reg (make_key uid pid) hnd
    obtain ⟨h1, -, h3, -⟩ :=
      start_process_fresh startEnv (eraseR reg (make_key uid pid)) uid pid hnone r' hr'
    exact ⟨h1, h3, fun hlt => h3 ▸ hlt⟩

/-- C3 (counterexample): on an empty registry `restart_process` succeeds
(it starts the project), while the spec's stop-then-start composition fails
with the NotRunning error, so the two differ for keys without a record. -/
theorem C3_counterexample :
    (restart_process stopEnvBasic envLaunch [] 1 1).1.1 = true ∧
      (restart_spec stopEnvBasic envLaunch [] 1 1).1 = (false, "❌ Process is not running") ∧
      restart_process stopEnvBasic envLaunch [] 1 1 ≠
        restart_spec stopEnvBasic envLaunch [] 1 1 := by decide

/-- C3 witness: on a registry holding the key, `restart_process` agrees
with the stop-then-start composition. -/
theorem C3_restart_refines_witness :
    restart_process stopEnvBasic envRestart1 chainReg0 1 1 =
      restart_spec stopEnvBasic envRestart1 chainReg0 1 1 :=
  (C3_restart_refines stopEnvBasic envRestart1 chainReg0 1 1).1 (by decide)

/-- C4: `start_process` returns each failure exactly under the claimed
condition with all earlier checks negated, in the order AlreadyRunning,
NotFound, NotConfigured, MissingEntryFile, UnsupportedLanguage. -/
theorem C4_start_error_conditions (env : Env) (reg : Registry) (uid pid : Int) :
    (start_process env reg uid pid =
        StartResult.mk false "❌ Project is already running" reg false ↔
      cond_already env reg uid pid) ∧
    (start_process env reg uid pid = StartResult.mk false "❌ Project not found" reg false ↔
      ¬ cond_already env reg uid pid ∧ cond_notfound env uid pid) ∧
    (start_process env reg uid pid = StartResult.mk false
        "❌ Entry file or language not configured.\nUse ⚙️ Settings to configure." reg false ↔
      ¬ cond_already env reg uid pid ∧ cond_notconfigured env uid pid) ∧
    (∀ p, env.projects uid pid = some p →
      (start_process env reg uid pid = StartResult.mk false
          ("❌ Entry file not found: " ++ p.entry.getD "") reg false ↔
        ¬ cond_already env reg uid pid ∧ isFalsy p.entry = false ∧ isFalsy p.lang = false ∧
          env.entry_exists (get_project_root uid pid ++ "/" ++ p.entry.getD "") = false)) ∧
    (∀ p, env.projects uid pid = some p →
      (start_process env reg uid pid = StartResult.mk false
          ("❌ Unsupported language: " ++ p.lang.getD "") reg false ↔
        ¬ cond_already env reg uid pid ∧ isFalsy p.entry = false ∧ isFalsy p.lang = false ∧
          env.entry_exists (get_project_root uid pid ++ "/" ++ p.entry.getD "") = true ∧
          p.lang.getD "" ≠ "py" ∧ p.lang.getD "" ≠ "js")) :=
  ⟨start_iff_already env reg uid pid, start_iff_notfound env reg uid pid,
    start_iff_notconfigured env reg uid pid,
    fun p hp => start_iff_missing_entry env reg uid pid p hp,
    fun p hp => start_iff_unsupported env reg uid pid p hp⟩

/-- C4 witness: the AlreadyRunning equivalence on a live registry record,
and the MissingEntryFile equivalence when the entry file is absent from
disk. -/
theorem C4_start_error_conditions_witness :
    start_process envLaunch chainReg0 1 1 =
        StartResult.mk false "❌ Project is already running" chainReg0 false ∧
      start_process envNoEntry [] 1 1 =
        StartResult.mk false ("❌ Entry file not found: " ++ "main.py") [] false := by
  constructor
  · exact (C4_start_error_conditions envLaunch chainReg0 1 1).1.mpr
      ⟨⟨1, 1, "main.py", "py", 41, 100, "logs/1/project_1.log", true, 0, none, 0⟩,
        by decide, rfl⟩
  · refine ((C4_start_error_conditions envNoEntry [] 1 1).2.2.2.1 demoProject rfl).mpr
      ⟨?_, by decide, by decide, rfl⟩
    rintro ⟨proc, hl, -⟩
    simp [lookupR] at hl

/-- C5: stopping an unregistered key returns the NotRunning failure and
leaves the registry unchanged; stopping a key whose process already exited
removes the record and reports success; and after any successful stop, a
second stop returns NotRunning rather than a fault. -/
theorem C5_stop_idempotent (env env2 : StopEnv) (reg : Registry) (uid pid : Int) :
    (lookupR reg (make_key uid pid) = none →
      stop_process env reg uid pid = ((false, "❌ Process is not running"), reg, [])) ∧
    (∀ proc c, lookupR reg (make_key uid pid) = some proc → env.poll proc.pid = some c →
      stop_process env reg uid pid =
        ((true, "✅ Process was already stopped"), eraseR reg (make_key uid pid), [])) ∧
    (keysNodup reg → (stop_process env reg uid pid).1.1 = true →
      stop_process env2 (stop_process env reg uid pid).2.1 uid pid =
        ((false, "❌ Process is not running"), (stop_process env reg uid pid).2.1, [])) := by
  refine ⟨?_, ?_, ?_⟩
  · intro h
    simp [stop_process, h]
  · intro proc c hl hp
    simp [stop_process, hl, hp]
  · intro hnd hok
    have hreg := stop_process_ok_reg env reg uid pid hok
    rw [hreg]
    have hnone := lookupR_eraseR_self reg (make_key uid pid) hnd
    simp [stop_process, hnone]

/-- C5 witness: stop on an empty registry, and a second stop after a
successful one. -/
theorem C5_stop_idempotent_witness :
    stop_process stopEnvBasic [] 1 1 = ((false, "❌ Process is not running"), [], []) ∧
      stop_process stopEnvBasic (stop_process stopEnvBasic chainReg0 1 1).2.1 1 1 =
        ((false, "❌ Process is not running"),
          (stop_process stopEnvBasic chainReg0 1 1).2.1, []) := by
  constructor
  · exact (C5_stop_idempotent stopEnvBasic stopEnvBasic [] 1 1).1 (by decide)
  · exact (C5_stop_idempotent stopEnvBasic stopEnvBasic chainReg0 1 1).2.2
      (by unfold keysNodup; decide) (by decide)

/-- C6: once the terminate/wait/kill sequence runs (the process was alive
and the psutil lookup succeeded), `stop_process` removes the record and
reports success for every combination of per-signal failures and wait
timeout — signal-send failures are recorded in the trace but never change
the outcome. -/
theorem C6_stop_unconditional_removal (env : StopEnv) (reg : Registry) (uid pid : Int)
    (proc : RunningProcess)
    (hl : lookupR reg (make_key uid pid) = some proc)
    (hp : env.poll proc.pid = none)
    (hps : env.ps_ok = true) :
    stop_process env reg uid pid =
      ((true, "✅ Process stopped"), eraseR reg (make_key uid pid),
        ((env.children proc.pid).map (fun c => SigEvent.mk Sig.term c (env.term_fails c)) ++
            [SigEvent.mk Sig.term proc.pid (env.term_fails proc.pid)]) ++
          (if env.wait_timeout then
            (env.children proc.pid).map (fun c => SigEvent.mk Sig.kill c (env.kill_fails c)) ++
              [SigEvent.mk Sig.kill proc.pid (env.kill_fails proc.pid)]
          else [])) := by
  simp [stop_process, hl, hp, hps]

/-- C6 witness: a stop in which every terminate and kill signal fails and
the graceful wait times out still removes the record and succeeds. -/
theorem C6_stop_unconditional_removal_witness :
    stop_process stopEnvHostile chainReg0 1 1 =
      ((true, "✅ Process stopped"), [],
        [⟨Sig.term, 77, true⟩, ⟨Sig.term, 41, true⟩,
          ⟨Sig.kill, 77, true⟩, ⟨Sig.kill, 41, true⟩]) := by
  rw [C6_stop_unconditional_removal stopEnvHostile chainReg0 1 1
    ⟨1, 1, "main.py", "py", 41, 100, "logs/1/project_1.log", true, 0, none, 0⟩
    (by decide) rfl rfl]
  decide

/-- C8 (amended): every failure of the environment-creation invocation and
of the package-install invocation — missing manifest, venv-creation failure
(propagated verbatim by both install operations), non-zero pip exit, pip
timeout, or a raised exception such as a missing executable — becomes a
structured `(false, message)` result, and a missing manifest fails before any
command is invoked (empty trace).  The version-query invocation (`pip show`)
is the exception the source actually implements: its non-zero exit is
tolerated and the operation still reports success with version `unknown`,
while a `pip show` timeout or raised exception is caught by the install
handlers and turns the otherwise-successful install into a failure
message. -/
theorem C8_installer_failures (env : InstallEnv) (pkg : String) :
    (env.manifest_exists = false →
      install_requirements env = ((false, "❌ requirements.txt not found"), [])) ∧
    (env.venv_exists = false → env.venv_create.isOk = false →
      (create_venv env).1.1 = false) ∧
    (env.manifest_exists = true → (create_venv env).1.1 = true →
      env.pip_install.isOk = false → (install_requirements env).1.1 = false) ∧
    ((create_venv env).1.1 = true → env.pip_install.isOk = false →
      (install_package env pkg).1.1 = false) ∧
    (∀ d, env.pip_install = RunOutcome.raised d → env.manifest_exists = true →
      (create_venv env).1.1 = true →
      install_requirements env =
        ((false, "❌ Installation error: " ++ d), (create_venv env).2 ++ [Cmd.pipInstallReq])) ∧
    (∀ d, env.pip_install = RunOutcome.timedOut d → env.manifest_exists = true →
      (create_venv env).1.1 = true →
      install_requirements env =
        ((false, "❌ Installation timeout (>5 minutes)"),
          (create_venv env).2 ++ [Cmd.pipInstallReq])) ∧
    (env.manifest_exists = true → (create_venv env).1.1 = false →
      install_requirements env = ((false, (create_venv env).1.2), (create_venv env).2)) ∧
    ((create_venv env).1.1 = false →
      install_package env pkg = ((false, (create_venv env).1.2), (create_venv env).2)) ∧
    (∀ iout ierr rc sout serr, env.pip_install = RunOutcome.completed 0 iout ierr →
      env.pip_show = RunOutcome.completed rc sout serr → ¬ rc = 0 →
      (create_venv env).1.1 = true →
      install_package env pkg =
        ((true, "✅ Installed " ++ pkg ++ " v" ++ "unknown"),
          (create_venv env).2 ++ [Cmd.pipInstallPkg pkg, Cmd.pipShow pkg])) ∧
    (∀ iout ierr d, env.pip_install = RunOutcome.completed 0 iout ierr →
      env.pip_show = RunOutcome.timedOut d → (create_venv env).1.1 = true →
      install_package env pkg =
        ((false, "❌ Installation timeout"),
          (create_venv env).2 ++ [Cmd.pipInstallPkg pkg, Cmd.pipShow pkg])) ∧
    (∀ iout ierr d, env.pip_install = RunOutcome.completed 0 iout ierr →
      env.pip_show = RunOutcome.raised d → (create_venv env).1.1 = true →
      install_package env pkg =
        ((false, "❌ Error: " ++ d),
          (create_venv env).2 ++ [Cmd.pipInstallPkg pkg, Cmd.pipShow pkg])) := by
  refine ⟨?_, ?_, ?_, ?_, ?_, ?_, ?_, ?_, ?_, ?_, ?_⟩
  · intro hm
    simp [install_requirements, hm]
  · intro hv hok
    rcases hcv : env.venv_create with ⟨rc, out, err⟩ | d | d
    · rw [hcv] at hok
      simp [RunOutcome.isOk] at hok
      split at hok
      · simp at hok
      · next hrc =>
        have hrc0 : ¬ rc = 0 := fun h => hrc out err (by rw [h])
        simp [create_venv, hv, hcv, hrc0]
    · simp [create_venv, hv, hcv]
    · simp [create_venv, hv, hcv]
  · intro hm hcv hok
    rcases hc : create_venv env with ⟨⟨vok, vmsg⟩, tr⟩
    rw [hc] at hcv
    simp at hcv
    subst hcv
    rcases hpi : env.pip_install with ⟨rc, out, err⟩ | d | d
    · rw [hpi] at hok
      simp [RunOutcome.isOk] at hok
      split at hok
      · simp at hok
      · next hrc =>
        have hrc0 : ¬ rc = 0 := fun h => hrc out err (by rw [h])
        simp [install_requirements, hm, hc, hpi, hrc0]
    · simp [install_requirements, hm, hc, hpi]
    · simp [install_requirements, hm, hc, hpi]
  · intro hcv hok
    rcases hc : create_venv env with ⟨⟨vok, vmsg⟩, tr⟩
    rw [hc] at hcv
    simp at hcv
    subst hcv
    rcases hpi : env.pip_install with ⟨rc, out, err⟩ | d | d
    · rw [hpi] at hok
      simp [RunOutcome.isOk] at hok
      split at hok
      · simp at hok
      · next hrc =>
        have hrc0 : ¬ rc = 0 := fun h => hrc out err (by rw [h])
        simp [install_package, hc, hpi, hrc0]
    · simp [install_package, hc, hpi]
    · simp [install_package, hc, hpi]
  · intro d hpi hm hcv
    rcases hc : create_venv env with ⟨⟨vok, vmsg⟩, tr⟩
    rw [hc] at hcv
    simp at hcv
    subst hcv
    simp [install_requirements, hm, hc, hpi]
  · intro d hpi hm hcv
    rcases hc : create_venv env with ⟨⟨vok, vmsg⟩, tr⟩
    rw [hc] at hcv
    simp at hcv
    subst hcv
    simp [install_requirements, hm, hc, hpi]
  · intro hm hcv
    rcases hc : create_venv env with ⟨⟨vok, vmsg⟩, tr⟩
    rw [hc] at hcv
    simp at hcv
    subst hcv
    simp [install_requirements, hm, hc]
  · intro hcv
    rcases hc : create_venv env with ⟨⟨vok, vmsg⟩, tr⟩
    rw [hc] at hcv
    simp at hcv
    subst hcv
    simp [install_package, hc]
  · intro iout ierr rc sout serr hpi hps hrc hcv
    rcases hc : create_venv env with ⟨⟨vok, vmsg⟩, tr⟩
    rw [hc] at hcv
    simp at hcv
    subst hcv
    simp [install_package, hc, hpi, hps, hrc]
  · intro iout ierr d hpi hps hcv
    rcases hc : create_venv env with ⟨⟨vok, vmsg⟩, tr⟩
    rw [hc] at hcv
    simp at hcv
    subst hcv
    simp [install_package, hc, hpi, hps]
  · intro iout ierr d hpi hps hcv
    rcases hc : create_venv env with ⟨⟨vok, vmsg⟩, tr⟩
    rw [hc] at hcv
    simp at hcv
    subst hcv
    simp [install_package, hc, hpi, hps]

/-- C8 (counterexample): with `pip install` succeeding but the `pip show`
version query exiting non-zero — an external invocation failure by the
claim's own list — `install_package` returns success with version `unknown`,
not a `(false, message)` result. -/
theorem C8_counterexample :
    installEnvShowFails.pip_show.isOk = false ∧
      install_package installEnvShowFails "x" =
        ((true, "✅ Installed x vunknown"),
          [Cmd.pipInstallPkg "x", Cmd.pipShow "x"]) := by decide

/-- C8 witness: a missing manifest invokes nothing, a raised pip exception
becomes a structured failure message, and a non-zero `pip show` exit yields
the tolerated success-with-unknown-version result. -/
theorem C8_installer_failures_witness :
    install_requirements installEnvNoManifest = ((false, "❌ requirements.txt not found"), []) ∧
      install_requirements installEnvPipRaises =
        ((false, "❌ Installation error: " ++ "pip not found"), [Cmd.pipInstallReq]) ∧
      install_package installEnvShowFails "x" =
        ((true, "✅ Installed " ++ "x" ++ " v" ++ "unknown"),
          [Cmd.pipInstallPkg "x", Cmd.pipShow "x"]) := by
  refine ⟨?_, ?_, ?_⟩
  · exact (C8_installer_failures installEnvNoManifest "x").1 rfl
  · exact (C8_installer_failures installEnvPipRaises "x").2.2.2.2.1 "pip not found" rfl rfl rfl
  · exact (C8_installer_failures installEnvShowFails "x").2.2.2.2.2.2.2.2.1
      "" "" 1 "" "boom" rfl rfl (by decide) rfl

/-- C9: `start_process` is a synchronous function with no suspension
point, so under the host's single-threaded cooperative scheduler two
simultaneous calls for one key execute atomically in some order; for either
order (the environments are arbitrary), the first successful call spawns,
and the second call observes the inserted record, returns AlreadyRunning,
does not spawn, and leaves the registry unchanged. -/
theorem C9_concurrent_start (env1 env2 : Env) (reg : Registry) (uid pid : Int)
    (h1 : (start_process env1 reg uid pid).ok = true)
    (h2 : ∀ q, env1.spawn = some q → env2.poll q = none) :
    (start_process env1 reg uid pid).spawned = true ∧
      start_process env2 (start_process env1 reg uid pid).reg uid pid =
        StartResult.mk false "❌ Project is already running"
          (start_process env1 reg uid pid).reg false := by
  obtain ⟨hsp, q, p, hq, hp, hreg⟩ := start_process_ok_reg env1 reg uid pid h1
  refine ⟨hsp, ?_⟩
  refine (start_iff_already env2 _ uid pid).mpr
    ⟨{ user_id := uid
       project_id := pid
       entry_file := p.entry.getD ""
       language := p.lang.getD ""
       pid := q
       start_time := env1.now
       log_path := get_log_path uid pid
       auto_restart := p.auto_restart ≠ 0 }, ?_, h2 q hq⟩
  rw [hreg]
  exact lookupR_insertR_self reg (make_key uid pid) _

/-- C9 witness: two back-to-back starts of the same fresh key — the first
spawns and succeeds, the second gets AlreadyRunning without spawning. -/
theorem C9_concurrent_start_witness :
    (start_process envLaunch [] 1 1).spawned = true ∧
      start_process envLaunch (start_process envLaunch [] 1 1).reg 1 1 =
        StartResult.mk false "❌ Project is already running"
          (start_process envLaunch [] 1 1).reg false :=
  C9_concurrent_start envLaunch envLaunch [] 1 1 (by decide) (fun q hq => rfl)

/-- C10: `get_all_running` lists a key exactly when its registry record's
process polls as still running; a record whose process has exited is
silently omitted from the listing even though the registry still returns
it. -/
theorem C10_listing_omits_exited (env : Env) (reg : Registry) (k : String)
    (hnd : keysNodup reg) :
    ((∃ e ∈ get_all_running env reg, e.key = k) ↔
      (∃ r, lookupR reg k = some r ∧ env.poll r.pid = none)) ∧
    (∀ r c, lookupR reg k = some r → env.poll r.pid = some c →
      ∀ e ∈ get_all_running env reg, e.key ≠ k) := by
  have hiff : (∃ e ∈ get_all_running env reg, e.key = k) ↔
      (∃ r, lookupR reg k = some r ∧ env.poll r.pid = none) := by
    constructor
    · rintro ⟨e, he, hk⟩
      rw [get_all_running, List.mem_filterMap] at he
      obtain ⟨kv, hkv, hf⟩ := he
      split at hf
      · next hpoll =>
        obtain rfl : _ = e := by injection hf
        subst hk
        exact ⟨kv.2, lookupR_of_mem_nodup reg kv.1 kv.2 hnd hkv, hpoll⟩
      · simp at hf
    · rintro ⟨r, hl, hp⟩
      refine ⟨⟨k, r.user_id, r.project_id, r.pid, env.now - r.start_time, r.restart_count⟩,
        ?_, rfl⟩
      rw [get_all_running, List.mem_filterMap]
      exact ⟨(k, r), mem_of_lookupR reg k r hl, by simp [hp]⟩
  refine ⟨hiff, ?_⟩
  intro r c hl hp e he hek
  obtain ⟨r', hl', hp'⟩ := hiff.mp ⟨e, he, hek⟩
  rw [hl] at hl'
  obtain rfl : r = r' := by injection hl'
  rw [hp] at hp'
  exact Option.noConfusion hp'

/-- C10 witness: the launched record is listed while alive and omitted
once its process has exited. -/
theorem C10_listing_omits_exited_witness :
    (∃ e ∈ get_all_running envLaunch chainReg0, e.key = "1:1") ∧
      (∀ e ∈ get_all_running envCrash1 chainReg0, e.key ≠ "1:1") := by
  constructor
  · exact (C10_listing_omits_exited envLaunch chainReg0 "1:1"
      (by unfold keysNodup; decide)).1.mpr
      ⟨⟨1, 1, "main.py", "py", 41, 100, "logs/1/project_1.log", true, 0, none, 0⟩,
        by decide, rfl⟩
  · exact (C10_listing_omits_exited envCrash1 chainReg0 "1:1"
      (by unfold keysNodup; decide)).2
      ⟨1, 1, "main.py", "py", 41, 100, "logs/1/project_1.log", true, 0, none, 0⟩ 1
      (by decide) rfl

theorem pySplitlines_eq_nil (s : List Char) : pySplitlines s = [] ↔ s = [] := by
  cases s with
  | nil => simp [pySplitlines]
  | cons c cs =>
    by_cases hc : c = '\n'
    · simp [pySplitlines, hc]
    · cases hps : pySplitlines cs <;> simp [pySplitlines, hc, hps]

theorem count_le_length_pySplitlines (s : List Char) :
    s.count '\n' ≤ (pySplitlines s).length := by
  induction s with
  | nil => simp [pySplitlines]
  | cons c cs ih =>
    by_cases hc : c = '\n'
    · subst hc
      simp only [pySplitlines, if_pos rfl, List.length_cons, List.count_cons]
      simp
      omega
    · cases hps : pySplitlines cs with
      | nil =>
        have hcs : cs = [] := (pySplitlines_eq_nil cs).mp hps
        subst hcs
        simp [pySplitlines, hc, List.count_cons]
      | cons l ls =>
        rw [hps, List.length_cons] at ih
        simp only [pySplitlines, if_neg hc, hps, List.length_cons, List.count_cons]
        simp [hc]
        omega

theorem takeLast_cons (n : Nat) (x : α) (l : List α) (h : n ≤ l.length) :
    takeLast n (x :: l) = takeLast n l := by
  unfold takeLast
  simp only [List.length_cons]
  rw [show l.length + 1 - n = (l.length - n) + 1 by omega, List.drop_succ_cons]

theorem takeLast_of_le (n : Nat) (l : List α) (h : l.length ≤ n) : takeLast n l = l := by
  unfold takeLast
  rw [Nat.sub_eq_zero_of_le h, List.drop_zero]

theorem length_takeLast (n : Nat) (l : List α) (h : n ≤ l.length) :
    (takeLast n l).length = n := by
  unfold takeLast
  rw [List.length_drop]
  omega

theorem takeLast_pySplitlines_append (n : Nat) (p s : List Char)
    (h : n + 1 ≤ s.count '\n') :
    takeLast n (pySplitlines (p ++ s)) = takeLast n (pySplitlines s) := by
  induction p with
  | nil => rfl
  | cons c p ih =>
    have hlen : n + 1 ≤ (pySplitlines (p ++ s)).length := by
      have h1 : s.count '\n' ≤ (p ++ s).count '\n' := by
        rw [List.count_append]
        omega
      exact le_trans (le_trans h h1) (count_le_length_pySplitlines _)
    rw [List.cons_append]
    by_cases hc : c = '\n'
    · subst hc
      have hstep : pySplitlines ('\n' :: (p ++ s)) = [] :: pySplitlines (p ++ s) := by
        simp [pySplitlines]
      rw [hstep, takeLast_cons n [] _ (by omega)]
      exact ih
    · cases hps : pySplitlines (p ++ s) with
      | nil =>
        rw [hps] at hlen
        simp at hlen
      | cons l ls =>
        have hstep : pySplitlines (c :: (p ++ s)) = (c :: l) :: ls := by
          simp [pySplitlines, hc, hps]
        have hls : n ≤ ls.length := by
          rw [hps] at hlen
          simp at hlen
          omega
        rw [hstep, takeLast_cons n (c :: l) ls hls, ← takeLast_cons n l ls hls, ← hps]
        exact ih

theorem tailScanGo_spec (content : List Char) (lines : Nat) :
    ∀ fuel size, size ≤ fuel →
      tailScanGo content lines fuel size = 0 ∨
        lines < (content.drop (tailScanGo content lines fuel size)).count '\n' := by
  intro fuel
  induction fuel with
  | zero =>
    intro size h
    left
    simp only [tailScanGo]
    omega
  | succ fuel ih =>
    intro size h
    rw [tailScanGo]
    split
    · next hcond =>
      apply ih
      have hm : 0 < min 8192 size := lt_min (by norm_num) hcond.1
      omega
    · next hcond =>
      rcases Nat.eq_zero_or_pos size with hz | hz
      · exact Or.inl hz
      · right
        rcases Nat.lt_or_ge lines ((content.drop size).count '\n') with hlt | hge
        · exact hlt
        · exact absurd ⟨hz, hge⟩ hcond

theorem tailScan_spec (content : List Char) (lines : Nat) :
    tailScan content lines content.length = 0 ∨
      lines < (content.drop (tailScan content lines content.length)).count '\n' :=
  tailScanGo_spec content lines content.length content.length le_rfl

theorem read_logs_eq_full (content : List Char) (n : Nat) (hn : 1 ≤ n) :
    read_logs ⟨true, content, none⟩ n = read_logs_full ⟨true, content, none⟩ n := by
  rcases tailScan_spec content n with hr0 | hcnt
  · simp only [read_logs, read_logs_full, hr0, List.drop_zero]
  · simp only [read_logs, read_logs_full]
    have hn0 : n ≠ 0 := by omega
    have hsub := (List.take_append_drop (tailScan content n content.length) content).symm
    have htl : takeLast n (pySplitlines content) =
        takeLast n (pySplitlines (content.drop (tailScan content n content.length))) := by
      conv_lhs => rw [hsub]
      exact takeLast_pySplitlines_append n _ _ (by omega)
    simp only [pyLastSlice, if_neg hn0]
    rw [htl]

theorem read_logs_full_all (content : List Char) (n : Nat)
    (h1 : 1 ≤ (pySplitlines content).length) (h2 : (pySplitlines content).length < n) :
    read_logs_full ⟨true, content, none⟩ n = String.mk (joinNl (pySplitlines content)) := by
  have hn0 : n ≠ 0 := by omega
  have hne : pySplitlines content ≠ [] := by
    intro hh
    rw [hh] at h1
    simp at h1
  simp only [read_logs_full, pyLastSlice, if_neg hn0,
    takeLast_of_le n (pySplitlines content) (le_of_lt h2)]
  simp [hne]

theorem read_logs_full_tail (content : List Char) (n : Nat)
    (h1 : 1 ≤ n) (h2 : n < (pySplitlines content).length) :
    read_logs_full ⟨true, content, none⟩ n =
      String.mk (joinNl (takeLast n (pySplitlines content))) := by
  have hn0 : n ≠ 0 := by omega
  have hne : takeLast n (pySplitlines content) ≠ [] := by
    intro hh
    have := length_takeLast n (pySplitlines content) (le_of_lt h2)
    rw [hh] at this
    simp at this
    omega
  simp only [read_logs_full, pyLastSlice, if_neg hn0]
  simp [hne]

/-- C7 (amended): `read_logs` returns the missing-file sentinel when the
log does not exist and a displayable error string when the read raises; for
`n ≥ 1` the backward block read is equal to the full-read pipeline; a
nonempty log with fewer than `n` lines yields all of its lines joined
unmodified, and a log with more than `n` lines yields exactly the last `n`
lines of the full read.  (The empty log yields the "Log is empty" sentinel,
and `n = 0` returns all read lines because Python's `[-0:]` slice is the
whole list — see the counterexample.) -/
theorem C7_read_logs (content : List Char) (e : String) (n : Nat) :
    (read_logs ⟨false, content, none⟩ n = "📝 No logs yet") ∧
    (read_logs ⟨true, content, some e⟩ n = "❌ Error reading logs: " ++ e) ∧
    (1 ≤ n → read_logs ⟨true, content, none⟩ n = read_logs_full ⟨true, content, none⟩ n) ∧
    (1 ≤ (pySplitlines content).length → (pySplitlines content).length < n →
      read_logs ⟨true, content, none⟩ n = String.mk (joinNl (pySplitlines content))) ∧
    (1 ≤ n → n < (pySplitlines content).length →
      read_logs ⟨true, content, none⟩ n =
        String.mk (joinNl (takeLast n (pySplitlines content)))) := by
  refine ⟨rfl, rfl, fun hn => read_logs_eq_full content n hn, ?_, ?_⟩
  · intro h1 h2
    rw [read_logs_eq_full content n (by omega)]
    exact read_logs_full_all content n h1 h2
  · intro h1 h2
    rw [read_logs_eq_full content n h1]
    exact read_logs_full_tail content n h1 h2

/-- C7 (counterexample): the empty log file (fewer than 50 lines) returns
the "Log is empty" sentinel instead of its (empty) line content, and with
`n = 0` a one-line log returns that line instead of the last 0 lines,
because Python's `[-0:]` slice is the whole list. -/
theorem C7_counterexample :
    read_logs ⟨true, [], none⟩ 50 = "📝 Log is empty" ∧
      String.mk (joinNl (pySplitlines ([] : List Char))) = "" ∧
      read_logs ⟨true, ['a'], none⟩ 0 = "a" ∧
      String.mk (joinNl (takeLast 0 (pySplitlines ['a']))) = "" := by decide

/-- C7 witness: a two-line log read with n = 5 returns both lines, and a
three-line log read with n = 1 returns exactly the last line. -/
theorem C7_read_logs_witness :
    read_logs ⟨true, "a\nb".data, none⟩ 5 = String.mk (joinNl (pySplitlines "a\nb".data)) ∧
      read_logs ⟨true, "x\ny\nz".data, none⟩ 1 =
        String.mk (joinNl (takeLast 1 (pySplitlines "x\ny\nz".data))) := by
  constructor
  · exact (C7_read_logs "a\nb".data "" 5).2.2.2.1 (by decide) (by decide)
  · exact (C7_read_logs "x\ny\nz".data "" 1).2.2.2.2 (by decide) (by decide)
